import Mathlib

/-!
Shallow embedding of
src/myorg-myscenes-app/src/pages/MyForecast/scenesMlForecast.ts
(Grafana Scenes ML forecasting dashboard wiring), together with a model of
the baseline forecasting engine described by the design document
(the engine itself lives in the external grafana scenes-ml package, so it
is modelled from the specification).

Configuration values are plain data: intervals and thresholds are rationals,
enum options are inductives mirroring the imported grafana schema enums.
-/

/- Enums imported from the grafana schema (only constructors used here). -/

inductive LegendDisplayMode
| table
deriving DecidableEq

inductive TooltipDisplayMode
| multi
deriving DecidableEq

inductive SortOrder
| descending
deriving DecidableEq

inductive GraphDrawStyle
| line
deriving DecidableEq

inductive LineInterpolation
| smooth
deriving DecidableEq

/-- The SceneBaseliner configuration object from the scenes-ml package:
a confidence interval, a seasonality-discovery switch and a pinned flag. -/
structure SceneBaseliner where
  interval : ℚ
  discoverSeasonalities : Bool
  pinned : Bool
deriving DecidableEq

/-- A datasource reference, e.g. uid prometheus. -/
structure Datasource where
  uid : String
deriving DecidableEq

/-- A single query entry passed to a SceneQueryRunner. -/
structure PromQuery where
  refId : String
  expr : String
  interval : String
  format : Option String := none
  legendFormat : Option String := none
deriving DecidableEq

/-- The SceneQueryRunner configuration: a datasource plus queries. -/
structure SceneQueryRunner where
  datasource : Datasource
  queries : List PromQuery
deriving DecidableEq

/-- Legend panel option value. -/
structure LegendOptions where
  displayMode : LegendDisplayMode
  placement : String
  calcs : List String := []
deriving DecidableEq

/-- Tooltip panel option value. -/
structure TooltipOptions where
  mode : TooltipDisplayMode
  sort : SortOrder
deriving DecidableEq

/-- A value stored under a custom field config key. -/
inductive CfgValue
| drawStyle (v : GraphDrawStyle)
| lineInterpolation (v : LineInterpolation)
| num (v : ℚ)
| bool (v : Bool)
deriving DecidableEq

/-- A color override produced inside setOverrides:
match fields by name and set a fixed color. -/
structure FieldOverride where
  matchName : String
  fixedColor : String
deriving DecidableEq

/-- The timeseries panel produced by the PanelBuilders chain: title, data,
header actions (the ML baseliner controls), options and field config. -/
structure TimeseriesPanel where
  title : String
  data : SceneQueryRunner
  headerActions : List SceneBaseliner
  legend : Option LegendOptions := none
  tooltip : Option TooltipOptions := none
  customFieldConfig : List (String × CfgValue) := []
  unit : Option String := none
  overrides : List FieldOverride := []
deriving DecidableEq

/-- PanelBuilders.timeseries from the scenes package: an empty builder. -/
def PanelBuilders.timeseries : TimeseriesPanel :=
  { title := ""
    data := { datasource := { uid := "" }, queries := [] }
    headerActions := [] }

def TimeseriesPanel.setTitle (p : TimeseriesPanel) (t : String) : TimeseriesPanel :=
  { p with title := t }

def TimeseriesPanel.setData (p : TimeseriesPanel) (d : SceneQueryRunner) : TimeseriesPanel :=
  { p with data := d }

def TimeseriesPanel.setHeaderActions (p : TimeseriesPanel) (a : List SceneBaseliner) : TimeseriesPanel :=
  { p with headerActions := a }

def TimeseriesPanel.setOptionLegend (p : TimeseriesPanel) (v : LegendOptions) : TimeseriesPanel :=
  { p with legend := some v }

def TimeseriesPanel.setOptionTooltip (p : TimeseriesPanel) (v : TooltipOptions) : TimeseriesPanel :=
  { p with tooltip := some v }

def TimeseriesPanel.setCustomFieldConfig (p : TimeseriesPanel) (k : String) (v : CfgValue) : TimeseriesPanel :=
  { p with customFieldConfig := p.customFieldConfig ++ [(k, v)] }

def TimeseriesPanel.setUnit (p : TimeseriesPanel) (u : String) : TimeseriesPanel :=
  { p with unit := some u }

def TimeseriesPanel.setOverrides (p : TimeseriesPanel) (o : List FieldOverride) : TimeseriesPanel :=
  { p with overrides := o }

/-- build finalizes the builder chain. -/
def TimeseriesPanel.build (p : TimeseriesPanel) : TimeseriesPanel := p

/-- createForecastPanel: a time series panel with ML forecasting,
baseliner at a 0.95 confidence interval, unpinned, with seasonality
discovery. -/
def createForecastPanel (title : String) (query : String) : TimeseriesPanel :=
  let baseliner : SceneBaseliner :=
    { interval := 0.95
      discoverSeasonalities := true
      pinned := false }
  let queryRunner : SceneQueryRunner :=
    { datasource := { uid := "prometheus" }
      queries := [
        { refId := "A"
          expr := query
          interval := "1m"
          format := some "time_series" }] }
  PanelBuilders.timeseries.setTitle title
    |>.setData queryRunner
    |>.setHeaderActions [baseliner]
    |>.setOptionLegend { displayMode := .table, placement := "right" }
    |>.setOptionTooltip { mode := .multi, sort := .descending }
    |>.setCustomFieldConfig "drawStyle" (.drawStyle .line)
    |>.setCustomFieldConfig "lineInterpolation" (.lineInterpolation .smooth)
    |>.setCustomFieldConfig "lineWidth" (.num 2)
    |>.setCustomFieldConfig "fillOpacity" (.num 10)
    |>.setCustomFieldConfig "pointSize" (.num 4)
    |>.setCustomFieldConfig "spanNulls" (.bool true)
    |>.build

/-- createAnomalyDetectionPanel: higher confidence (0.99) for anomaly
detection, unpinned, with seasonality discovery. -/
def createAnomalyDetectionPanel (title : String) (query : String) : TimeseriesPanel :=
  let baseliner : SceneBaseliner :=
    { interval := 0.99
      discoverSeasonalities := true
      pinned := false }
  let queryRunner : SceneQueryRunner :=
    { datasource := { uid := "prometheus" }
      queries := [
        { refId := "A"
          expr := query
          interval := "30s"
          format := some "time_series" }] }
  PanelBuilders.timeseries.setTitle title
    |>.setData queryRunner
    |>.setHeaderActions [baseliner]
    |>.setOptionLegend { displayMode := .table, placement := "bottom" }
    |>.setCustomFieldConfig "drawStyle" (.drawStyle .line)
    |>.setCustomFieldConfig "lineWidth" (.num 1)
    |>.setCustomFieldConfig "fillOpacity" (.num 20)
    |>.setUnit "short"
    |>.build

/-- createComparativeForecastPanel: two queries, baseliner at 0.90,
unpinned, with color overrides per series. -/
def createComparativeForecastPanel : TimeseriesPanel :=
  let baseliner : SceneBaseliner :=
    { interval := 0.90
      discoverSeasonalities := true
      pinned := false }
  let queryRunner : SceneQueryRunner :=
    { datasource := { uid := "prometheus" }
      queries := [
        { refId := "A"
          expr := "rate(http_requests_total[5m])"
          interval := "1m"
          legendFormat := some "HTTP Requests/sec" },
        { refId := "B"
          expr := "rate(cpu_usage_total[5m])"
          interval := "1m"
          legendFormat := some "CPU Usage" }] }
  PanelBuilders.timeseries.setTitle "Multi-Metric Forecast Comparison"
    |>.setData queryRunner
    |>.setHeaderActions [baseliner]
    |>.setOptionLegend
        { displayMode := .table
          placement := "right"
          calcs := ["lastNotNull", "mean", "max"] }
    |>.setOptionTooltip { mode := .multi, sort := .descending }
    |>.setCustomFieldConfig "drawStyle" (.drawStyle .line)
    |>.setCustomFieldConfig "lineWidth" (.num 2)
    |>.setOverrides [
        { matchName := "HTTP Requests/sec", fixedColor := "blue" },
        { matchName := "CPU Usage", fixedColor := "red" }]
    |>.build

/-- Options of MLForecastUtils.createAdvancedBaseliner; every field is
optional in the source. -/
structure AdvancedBaselinerOptions where
  interval : Option ℚ := none
  customSeasonalities : Option (List ℚ) := none
  anomalyThreshold : Option ℚ := none
deriving DecidableEq

/-- JavaScript falsy-or on an optional number: a missing value or 0 falls
back to the default, every other number passes through. -/
def jsOr (x : Option ℚ) (d : ℚ) : ℚ :=
  match x with
  | none => d
  | some v => if v = 0 then d else v

/-- MLForecastUtils.createAdvancedBaseliner: builds a SceneBaseliner whose
interval is options interval with the falsy-or default 0.95; no range
validation is performed. -/
def MLForecastUtils.createAdvancedBaseliner
    (options : Option AdvancedBaselinerOptions) : SceneBaseliner :=
  { interval := jsOr (options.bind fun o => o.interval) 0.95
    discoverSeasonalities := true
    pinned := false }

/-- MLForecastUtils.createLongTermForecastPanel: baseliner at 0.80 and
pinned for a consistent long-term view; title is decorated with the
forecast horizon. -/
def MLForecastUtils.createLongTermForecastPanel
    (title : String) (query : String) (forecastHours : ℕ := 24) : TimeseriesPanel :=
  let baseliner : SceneBaseliner :=
    { interval := 0.80
      discoverSeasonalities := true
      pinned := true }
  let queryRunner : SceneQueryRunner :=
    { datasource := { uid := "prometheus" }
      queries := [
        { refId := "A"
          expr := query
          interval := "5m"
          format := some "time_series" }] }
  PanelBuilders.timeseries.setTitle
      (title ++ " (" ++ toString forecastHours ++ "h forecast)")
    |>.setData queryRunner
    |>.setHeaderActions [baseliner]
    |>.setOptionLegend { displayMode := .table, placement := "right" }
    |>.setCustomFieldConfig "drawStyle" (.drawStyle .line)
    |>.setCustomFieldConfig "lineWidth" (.num 2)
    |>.setCustomFieldConfig "fillOpacity" (.num 15)
    |>.build

/-- Whether a baseliner interval lies strictly between 0 and 1. -/
def intervalInUnit (bl : SceneBaseliner) : Bool :=
  decide (0 < bl.interval ∧ bl.interval < 1)

/- Dashboard assembly: time range, variables, controls, flex layout. -/

/-- SceneTimeRange; source fields are from and to (renamed: Lean keywords). -/
structure SceneTimeRange where
  fromTime : String
  toTime : String
deriving DecidableEq

/-- A QueryVariable configuration. -/
structure QueryVariable where
  name : String
  label : String
  datasource : Datasource
  query : String
  value : String
  includeAll : Bool
  allValue : String
deriving DecidableEq

/-- SceneVariableSet is a list of query variables
(source field name: variables, a reserved word in Lean 4). -/
structure SceneVariableSet where
  vars : List QueryVariable
deriving DecidableEq

/-- SceneRefreshPicker configuration. -/
structure SceneRefreshPicker where
  intervals : List String
  refresh : String
deriving DecidableEq

/-- A dashboard control: the time picker or a refresh picker. -/
inductive SceneControl
| timePicker
| refreshPicker (r : SceneRefreshPicker)
deriving DecidableEq

/-- A SceneFlexItem holding one panel. -/
structure SceneFlexItem where
  width : String
  height : ℕ
  body : TimeseriesPanel
deriving DecidableEq

/-- An inner row layout whose children are flex items. -/
structure InnerFlexLayout where
  direction : String
  children : List SceneFlexItem
deriving DecidableEq

/-- The outer column layout whose children are the row layouts. -/
structure SceneFlexLayout where
  direction : String
  children : List InnerFlexLayout
deriving DecidableEq

/-- EmbeddedScene: time range, variables, controls and the body layout
(the source field named variables is rendered as varSet here). -/
structure EmbeddedScene where
  timeRange : SceneTimeRange
  varSet : SceneVariableSet
  controls : List SceneControl
  body : SceneFlexLayout
deriving DecidableEq

/-- A SceneAppPage; getScene is the scene thunk installed on the page. -/
structure SceneAppPage where
  title : String
  url : String
  subTitle : String
  routePath : String
  getScene : Unit → EmbeddedScene

/-- A SceneApp is a list of pages. -/
structure SceneApp where
  pages : List SceneAppPage

/-- createMLDashboard: the main dashboard scene with two forecast panels,
one anomaly detection panel and one comparative forecast panel. -/
def createMLDashboard (_ : Unit) : EmbeddedScene :=
  let timeRange : SceneTimeRange := { fromTime := "now-24h", toTime := "now" }
  let vars : SceneVariableSet :=
    { vars := [
        { name := "instance"
          label := "Instance"
          datasource := { uid := "prometheus" }
          query := "label_values(up, instance)"
          value := "All"
          includeAll := true
          allValue := ".*" },
        { name := "job"
          label := "Job"
          datasource := { uid := "prometheus" }
          query := "label_values(up, job)"
          value := "All"
          includeAll := true
          allValue := ".*" }] }
  { timeRange := timeRange
    varSet := vars
    controls := [
      .timePicker,
      .refreshPicker
        { intervals := ["5s", "10s", "30s", "1m", "5m", "15m", "30m", "1h"]
          refresh := "30s" }]
    body :=
      { direction := "column"
        children := [
          { direction := "row"
            children := [
              { width := "50%"
                height := 400
                body := createForecastPanel
                  "CPU Usage Forecast"
                  "avg(rate(cpu_usage_seconds_total\x7binstance=~\"$instance\", job=~\"$job\"\x7d[5m])) * 100" },
              { width := "50%"
                height := 400
                body := createForecastPanel
                  "Memory Usage Forecast"
                  "avg(memory_usage_bytes\x7binstance=~\"$instance\", job=~\"$job\"\x7d) / 1024 / 1024 / 1024" }] },
          { direction := "row"
            children := [
              { width := "100%"
                height := 400
                body := createAnomalyDetectionPanel
                  "Network Traffic Anomaly Detection"
                  "sum(rate(network_bytes_total\x7binstance=~\"$instance\", job=~\"$job\"\x7d[5m]))" }] },
          { direction := "row"
            children := [
              { width := "100%"
                height := 400
                body := createComparativeForecastPanel }] }] } }

/-- createMLForecastApp: a SceneApp with the single ML forecasting page. -/
def createMLForecastApp (_ : Unit) : SceneApp :=
  { pages := [
      { title := "ML Forecasting Dashboard"
        url := ""
        subTitle := "Predictive analytics with Grafana Scenes ML"
        routePath := "/ml-forecast"
        getScene := fun _ => createMLDashboard () }] }

/- Baseline Forecasting Engine, modelled from the design document.
The engine itself ships in the external scenes-ml package; the repository
only configures it, so every definition below is modelled from the spec. -/

/-- Modelled from the spec: a series point, (timestamp: integer epoch,
value) with rational values standing in for float64. -/
structure SeriesPoint where
  t : ℤ
  v : ℚ
deriving DecidableEq

/-- Modelled from the spec: a Series is an ordered sequence of points. -/
abbrev Series := List SeriesPoint

/-- Modelled from the spec: per-timestamp (center, lowerBound, upperBound)
entry of a ConfidenceBand. -/
structure BandPoint where
  t : ℤ
  center : ℚ
  lowerBound : ℚ
  upperBound : ℚ
deriving DecidableEq

/-- Modelled from the spec: a ConfidenceBand aligned to the input Series. -/
abbrev ConfidenceBand := List BandPoint

/-- Modelled from the spec: engine Config, confidence level plus the
seasonality-discovery switch (the pinned flag lives in the recalculation
state machine below). -/
structure Config where
  confidenceLevel : ℚ
  discoverSeasonalities : Bool
deriving DecidableEq

/-- Modelled from the spec: a fitted BaselineModel, trend component,
summed seasonal components and the residual standard deviation
(the square root of the residual variance). -/
structure BaselineModel where
  trend : ℤ → ℚ
  seasonal : ℤ → ℚ
  residualStd : ℚ

/-- Modelled from the spec: the center estimate at a timestamp is
trend plus seasonal components. -/
def BaselineModel.center (m : BaselineModel) (t : ℤ) : ℚ :=
  m.trend t + m.seasonal t

/-- Modelled from the spec: band half-width is z(confidenceLevel) times
the residual standard deviation, z the quantile function of the assumed
residual distribution. -/
def halfWidth (z : ℚ → ℚ) (m : BaselineModel) (c : ℚ) : ℚ :=
  z c * m.residualStd

/-- Modelled from the spec: project the fitted model across the target
timestamps and produce the confidence band at level c. -/
def projectBand (z : ℚ → ℚ) (m : BaselineModel) (c : ℚ) (ts : List ℤ) : ConfidenceBand :=
  ts.map fun t =>
    { t := t
      center := m.center t
      lowerBound := m.center t - halfWidth z m c
      upperBound := m.center t + halfWidth z m c }

/-- Modelled from the spec: the band value aligned to a timestamp, none
when the band has no entry at that timestamp. -/
def alignedBand (band : ConfidenceBand) (t : ℤ) : Option BandPoint :=
  band.find? fun b => b.t == t

/-- Modelled from the spec: a point is anomalous iff its value lies
strictly outside the aligned [lowerBound, upperBound]; a point with no
aligned band value is never flagged. -/
def anomalyFlag (band : ConfidenceBand) (p : SeriesPoint) : Bool :=
  match alignedBand band p.t with
  | none => false
  | some b => decide (p.v < b.lowerBound) || decide (b.upperBound < p.v)

/-- The width of a band entry. -/
def BandPoint.width (b : BandPoint) : ℚ :=
  b.upperBound - b.lowerBound

/- Recalculation policy: the state machine of section 4.5. -/

/-- Modelled from the spec: recalculation states. -/
inductive RecalcStatus
| stale
| computing
| fresh
| pinned
deriving DecidableEq

/-- Modelled from the spec: the engine state, current status, the input
snapshot (Series and Config), the last published fresh band, the single
coalesced pending recompute input, and a counter of started recomputes. -/
structure EngineState where
  status : RecalcStatus
  series : Series
  config : Config
  published : Option ConfidenceBand
  pending : Option (Series × Config)
  recomputes : ℕ
deriving DecidableEq

/-- Modelled from the spec: events driving the reactive loop, input
changes, pin toggles and computation lifecycle events. -/
inductive Event
| seriesChange (s : Series)
| configChange (c : Config)
| pin
| unpin
| computeStart
| computeSuccess (b : ConfidenceBand)
| computeFailure
deriving DecidableEq

/-- The Series component of the coalesced pending input, falling back to
the current input snapshot. -/
def EngineState.pendingSeries (st : EngineState) : Series :=
  match st.pending with
  | some (s, _) => s
  | none => st.series

/-- The Config component of the coalesced pending input, falling back to
the current input snapshot. -/
def EngineState.pendingConfig (st : EngineState) : Config :=
  match st.pending with
  | some (_, c) => c
  | none => st.config

/-- Modelled from the spec: one transition of the recalculation state
machine. While computing, change events only update the single coalesced
pending input (last-write-wins). While pinned, input changes are recorded
but the published band is frozen. On compute success with a pending input
the arriving result is for stale inputs and is discarded, and exactly one
recompute starts from the coalesced input; on failure the status reverts
to stale with the published band retained. Pinning mid-computation wins:
the in-flight result is discarded on arrival. -/
def step (st : EngineState) (e : Event) : EngineState :=
  match e with
  | .seriesChange s =>
    match st.status with
    | .computing => { st with pending := some (s, st.pendingConfig) }
    | .pinned => { st with series := s }
    | _ => { st with series := s, status := .stale }
  | .configChange c =>
    match st.status with
    | .computing => { st with pending := some (st.pendingSeries, c) }
    | .pinned => { st with config := c }
    | _ => { st with config := c, status := .stale }
  | .pin =>
    match st.status with
    | .computing => { st with status := .pinned, pending := none }
    | _ => { st with status := .pinned }
  | .unpin =>
    match st.status with
    | .pinned => { st with status := .stale }
    | _ => st
  | .computeStart =>
    match st.status with
    | .stale => { st with status := .computing, recomputes := st.recomputes + 1 }
    | _ => st
  | .computeSuccess b =>
    match st.status with
    | .computing =>
      match st.pending with
      | none => { st with status := .fresh, published := some b }
      | some (s, c) =>
        { st with series := s, config := c, pending := none,
                  status := .computing, recomputes := st.recomputes + 1 }
    | _ => st
  | .computeFailure =>
    match st.status with
    | .computing => { st with status := .stale }
    | _ => st

/-- Run a sequence of events through the state machine. -/
def runEvents (st : EngineState) (evs : List Event) : EngineState :=
  evs.foldl step st

/-- An event is an input change (data or Config). -/
def isChange : Event → Bool
  | .seriesChange _ => true
  | .configChange _ => true
  | _ => false

/-- Last-write-wins merge of a change event into a pending input
snapshot. -/
def applyChange (sc : Series × Config) (e : Event) : Series × Config :=
  match e with
  | .seriesChange s => (s, sc.2)
  | .configChange c => (sc.1, c)
  | _ => sc

/- Theorems. -/

/-- C10: MLForecastUtils.createAdvancedBaseliner maps options.interval = 0,
omitted options and an undefined interval all to the default 0.95: the
falsy-or fallback replaces 0 with the default rather than passing 0
through. -/
theorem createAdvancedBaseliner_falsy_default :
    (MLForecastUtils.createAdvancedBaseliner (some { interval := some 0 })).interval = 0.95 ∧
    (MLForecastUtils.createAdvancedBaseliner none).interval = 0.95 ∧
    (MLForecastUtils.createAdvancedBaseliner (some {})).interval = 0.95 := by
  refine ⟨?_, ?_, ?_⟩ <;> simp [MLForecastUtils.createAdvancedBaseliner, jsOr]

/-- C1 counterexample: with options.interval = 2, a value outside (0,1),
MLForecastUtils.createAdvancedBaseliner raises no validation error and
returns a baseliner carrying confidence level 2, refuting the claim that
such values are always rejected. -/
theorem createAdvancedBaseliner_accepts_out_of_range :
    (MLForecastUtils.createAdvancedBaseliner (some { interval := some 2 })).interval = 2 ∧
    intervalInUnit (MLForecastUtils.createAdvancedBaseliner (some { interval := some 2 })) = false := by
  constructor
  · norm_num [MLForecastUtils.createAdvancedBaseliner, jsOr]
  · norm_num [MLForecastUtils.createAdvancedBaseliner, jsOr, intervalInUnit]

/-- C1 amended: MLForecastUtils.createAdvancedBaseliner performs no range
validation: every nonzero interval value, in particular any value outside
(0,1), is passed through unchanged to the produced baseliner; only 0 and
a missing interval are replaced by the default 0.95. -/
theorem createAdvancedBaseliner_passes_nonzero_through (x : ℚ) (hx : x ≠ 0) :
    (MLForecastUtils.createAdvancedBaseliner (some { interval := some x })).interval = x := by
  simp [MLForecastUtils.createAdvancedBaseliner, jsOr, hx]

/-- Witness for the amended C1 theorem at the concrete input 2. -/
theorem createAdvancedBaseliner_passes_nonzero_through_witness :
    (2 : ℚ) ≠ 0 ∧
    (MLForecastUtils.createAdvancedBaseliner (some { interval := some 2 })).interval = 2 :=
  ⟨two_ne_zero, createAdvancedBaseliner_passes_nonzero_through 2 two_ne_zero⟩

/-- C2: every SceneBaseliner constructed by createForecastPanel,
createAnomalyDetectionPanel, createComparativeForecastPanel and
MLForecastUtils.createLongTermForecastPanel has its interval strictly
between 0 and 1, for all title, query and forecastHours arguments. -/
theorem panel_baseliner_interval_in_unit (t q : String) (fh : ℕ) :
    (createForecastPanel t q).headerActions.all intervalInUnit = true ∧
    (createAnomalyDetectionPanel t q).headerActions.all intervalInUnit = true ∧
    createComparativeForecastPanel.headerActions.all intervalInUnit = true ∧
    (MLForecastUtils.createLongTermForecastPanel t q fh).headerActions.all intervalInUnit = true := by
  refine ⟨?_, ?_, ?_, ?_⟩ <;>
    norm_num [createForecastPanel, createAnomalyDetectionPanel,
      createComparativeForecastPanel, MLForecastUtils.createLongTermForecastPanel,
      PanelBuilders.timeseries, TimeseriesPanel.setTitle, TimeseriesPanel.setData,
      TimeseriesPanel.setHeaderActions, TimeseriesPanel.setOptionLegend,
      TimeseriesPanel.setOptionTooltip, TimeseriesPanel.setCustomFieldConfig,
      TimeseriesPanel.setUnit, TimeseriesPanel.setOverrides, TimeseriesPanel.build,
      intervalInUnit]

/-- C3: every panel built by this file carries exactly one SceneBaseliner
as a header action, for all title, query and forecastHours arguments; in
the assembled dashboard every flex item's panel does too. -/
theorem panels_have_baseliner_header_action (t q : String) (fh : ℕ) :
    (createForecastPanel t q).headerActions.length = 1 ∧
    (createAnomalyDetectionPanel t q).headerActions.length = 1 ∧
    createComparativeForecastPanel.headerActions.length = 1 ∧
    (MLForecastUtils.createLongTermForecastPanel t q fh).headerActions.length = 1 ∧
    (createMLDashboard ()).body.children.map
        (fun row => row.children.map fun it => it.body.headerActions.length) =
      [[1, 1], [1], [1]] := by
  refine ⟨rfl, rfl, rfl, rfl, rfl⟩

/-- C9: createMLForecastApp is deterministic, any two calls yield the same
configuration, namely a single page titled ML Forecasting Dashboard at
routePath /ml-forecast whose scene is always the createMLDashboard scene,
with the fixed now-24h..now time range. -/
theorem createMLForecastApp_deterministic :
    (∀ u v : Unit, createMLForecastApp u = createMLForecastApp v) ∧
    ∃ p, (createMLForecastApp ()).pages = [p] ∧
      p.title = "ML Forecasting Dashboard" ∧
      p.url = "" ∧
      p.subTitle = "Predictive analytics with Grafana Scenes ML" ∧
      p.routePath = "/ml-forecast" ∧
      (∀ u v : Unit, p.getScene u = p.getScene v) ∧
      p.getScene () = createMLDashboard () ∧
      (p.getScene ()).timeRange = { fromTime := "now-24h", toTime := "now" } := by
  refine ⟨fun u v => rfl, _, rfl, rfl, rfl, rfl, rfl, fun u v => rfl, rfl, rfl⟩

/-- C5: a series point is flagged anomalous exactly when some band value
aligned to its timestamp exists and its value is strictly outside
[lowerBound, upperBound]; hence a value equal to a bound (not strictly
outside) is not flagged, and a point with no aligned band value is never
flagged, since no aligned band entry exists at all. -/
theorem anomalyFlag_iff_strictly_outside (band : ConfidenceBand) (p : SeriesPoint) :
    anomalyFlag band p = true ↔
      ∃ b, alignedBand band p.t = some b ∧ (p.v < b.lowerBound ∨ b.upperBound < p.v) := by
  cases h : alignedBand band p.t <;> simp [anomalyFlag, h]

/-- C6: while the model is pinned, any sequence of Series mutations leaves
the previously computed published band unchanged and the engine stays
pinned, so the band can change only after an unpin. -/
theorem pinned_freezes_published
    (st : EngineState) (h : st.status = .pinned) (ss : List Series) :
    (runEvents st (ss.map Event.seriesChange)).published = st.published ∧
    (runEvents st (ss.map Event.seriesChange)).status = RecalcStatus.pinned := by
  induction ss generalizing st with
  | nil => exact ⟨rfl, h⟩
  | cons s rest ih =>
    have hstep : step st (Event.seriesChange s) = { st with series := s } := by
      simp [step, h]
    have hrun : runEvents st ((s :: rest).map Event.seriesChange) =
        runEvents { st with series := s } (rest.map Event.seriesChange) := by
      simp [runEvents, hstep]
    rw [hrun]
    exact ih { st with series := s } h

/-- Witness for the C6 theorem at a concrete pinned state and two series
mutations. -/
theorem pinned_freezes_published_witness :
    ({ status := .pinned, series := [], config := { confidenceLevel := 1, discoverSeasonalities := true },
       published := some [], pending := none, recomputes := 0 } : EngineState).status = .pinned ∧
    ((runEvents
        { status := .pinned, series := [], config := { confidenceLevel := 1, discoverSeasonalities := true },
          published := some [], pending := none, recomputes := 0 }
        ([[], [{ t := 0, v := 0 }]].map Event.seriesChange)).published = some [] ∧
      (runEvents
        { status := .pinned, series := [], config := { confidenceLevel := 1, discoverSeasonalities := true },
          published := some [], pending := none, recomputes := 0 }
        ([[], [{ t := 0, v := 0 }]].map Event.seriesChange)).status = RecalcStatus.pinned) :=
  ⟨rfl, pinned_freezes_published _ rfl _⟩

/-- C7: a compute failure in the computing state reverts the status to
stale and retains the previously published fresh band unchanged. -/
theorem computeFailure_reverts_to_stale (st : EngineState) (h : st.status = .computing) :
    (step st Event.computeFailure).status = .stale ∧
    (step st Event.computeFailure).published = st.published := by
  simp [step, h]

/-- Witness for the C7 theorem at a concrete computing state. -/
theorem computeFailure_reverts_to_stale_witness :
    ({ status := .computing, series := [], config := { confidenceLevel := 1, discoverSeasonalities := true },
       published := some [{ t := 0, center := 0, lowerBound := 0, upperBound := 0 }],
       pending := none, recomputes := 1 } : EngineState).status = .computing ∧
    ((step
        { status := .computing, series := [], config := { confidenceLevel := 1, discoverSeasonalities := true },
          published := some [{ t := 0, center := 0, lowerBound := 0, upperBound := 0 }],
          pending := none, recomputes := 1 }
        Event.computeFailure).status = .stale ∧
      (step
        { status := .computing, series := [], config := { confidenceLevel := 1, discoverSeasonalities := true },
          published := some [{ t := 0, center := 0, lowerBound := 0, upperBound := 0 }],
          pending := none, recomputes := 1 }
        Event.computeFailure).published =
        some [{ t := 0, center := 0, lowerBound := 0, upperBound := 0 }]) :=
  ⟨rfl, computeFailure_reverts_to_stale _ rfl⟩

/-- Every entry of a projected band has width twice the half-width at the
requested confidence level. -/
lemma width_of_mem_projectBand (z : ℚ → ℚ) (m : BaselineModel) (c : ℚ)
    (ts : List ℤ) (b : BandPoint) (hb : b ∈ projectBand z m c ts) :
    b.width = 2 * halfWidth z m c := by
  simp only [projectBand, List.mem_map] at hb
  obtain ⟨t, _, rfl⟩ := hb
  simp [BandPoint.width, halfWidth]
  ring

/-- C4: for a fixed fitted model with a nonnegative residual deviation
and a monotone quantile function z, whenever two band projections at
confidence levels c1 < c2 both carry a value aligned to a timestamp, the
band width under c2 is at least the band width under c1. -/
theorem bandWidth_monotone_in_confidence
    (z : ℚ → ℚ) (hz : Monotone z) (m : BaselineModel) (hm : 0 ≤ m.residualStd)
    (c1 c2 : ℚ) (hc : c1 < c2) (ts : List ℤ) (t : ℤ) (b1 b2 : BandPoint)
    (h1 : alignedBand (projectBand z m c1 ts) t = some b1)
    (h2 : alignedBand (projectBand z m c2 ts) t = some b2) :
    b1.width ≤ b2.width := by
  have m1 : b1 ∈ projectBand z m c1 ts := List.mem_of_find?_eq_some h1
  have m2 : b2 ∈ projectBand z m c2 ts := List.mem_of_find?_eq_some h2
  rw [width_of_mem_projectBand z m c1 ts b1 m1,
    width_of_mem_projectBand z m c2 ts b2 m2]
  have hzz : z c1 * m.residualStd ≤ z c2 * m.residualStd :=
    mul_le_mul_of_nonneg_right (hz hc.le) hm
  simp only [halfWidth]
  linarith

/-- The flat zero model with unit residual deviation, used as a concrete
instance of the band projection. -/
def constModel : BaselineModel :=
  { trend := fun _ => 0
    seasonal := fun _ => 0
    residualStd := 1 }

/-- Witness for the C4 theorem: confidence levels 0 < 1 with the identity
quantile function on the flat model over the single timestamp 0. -/
theorem bandWidth_monotone_in_confidence_witness :
    Monotone (id : ℚ → ℚ) ∧ (0 : ℚ) ≤ constModel.residualStd ∧ (0 : ℚ) < 1 ∧
    alignedBand (projectBand id constModel 0 [0]) 0 =
      some { t := 0, center := 0, lowerBound := 0, upperBound := 0 } ∧
    alignedBand (projectBand id constModel 1 [0]) 0 =
      some { t := 0, center := 0, lowerBound := -1, upperBound := 1 } ∧
    BandPoint.width { t := 0, center := 0, lowerBound := 0, upperBound := 0 } ≤
      BandPoint.width { t := 0, center := 0, lowerBound := -1, upperBound := 1 } := by
  have h1 : alignedBand (projectBand id constModel 0 [0]) 0 =
      some { t := 0, center := 0, lowerBound := 0, upperBound := 0 } := by
    simp [alignedBand, projectBand, constModel, BaselineModel.center, halfWidth]
  have h2 : alignedBand (projectBand id constModel 1 [0]) 0 =
      some { t := 0, center := 0, lowerBound := -1, upperBound := 1 } := by
    simp [alignedBand, projectBand, constModel, BaselineModel.center, halfWidth]
  exact ⟨monotone_id, zero_le_one, zero_lt_one, h1, h2,
    bandWidth_monotone_in_confidence id monotone_id constModel zero_le_one
      0 1 zero_lt_one [0] 0 _ _ h1 h2⟩

/-- While computing with a pending input already present, change events
only rewrite the single pending input, last-write-wins: the rest of the
state, its status and its recompute counter included, is untouched. -/
lemma runEvents_changes_pending (evs : List Event) (hch : evs.all isChange = true)
    (st : EngineState) (sc : Series × Config)
    (h1 : st.status = .computing) (h2 : st.pending = some sc) :
    runEvents st evs = { st with pending := some (evs.foldl applyChange sc) } := by
  induction evs generalizing st sc with
  | nil =>
    simp only [runEvents, List.foldl_nil]
    rw [← h2]
  | cons e rest ih =>
    simp only [List.all_cons, Bool.and_eq_true] at hch
    obtain ⟨he, hrest⟩ := hch
    cases e with
    | seriesChange s =>
      have hstep : step st (Event.seriesChange s) = { st with pending := some (s, sc.2) } := by
        simp [step, h1, EngineState.pendingConfig, h2]
      have hrun : runEvents st (Event.seriesChange s :: rest) =
          runEvents { st with pending := some (s, sc.2) } rest := by
        simp [runEvents, hstep]
      rw [hrun, ih hrest { st with pending := some (s, sc.2) } (s, sc.2) h1 rfl]
      simp [applyChange]
    | configChange c =>
      have hstep : step st (Event.configChange c) = { st with pending := some (sc.1, c) } := by
        simp [step, h1, EngineState.pendingSeries, h2]
      have hrun : runEvents st (Event.configChange c :: rest) =
          runEvents { st with pending := some (sc.1, c) } rest := by
        simp [runEvents, hstep]
      rw [hrun, ih hrest { st with pending := some (sc.1, c) } (sc.1, c) h1 rfl]
      simp [applyChange]
    | pin => simp [isChange] at he
    | unpin => simp [isChange] at he
    | computeStart => simp [isChange] at he
    | computeSuccess b => simp [isChange] at he
    | computeFailure => simp [isChange] at he

/-- C8: while the engine is computing with no pending recompute yet, any
nonempty sequence of data/Config change events is coalesced into exactly
one pending recompute whose input is the last-write-wins merge of the
changes; no recompute is started while the changes arrive, and when the
in-flight computation completes exactly one recompute is triggered (its
stale-input result being discarded), which also covers an unpinned model
receiving many changes before its recompute completes. -/
theorem computing_coalesces_changes
    (st : EngineState) (h1 : st.status = .computing) (h2 : st.pending = none)
    (evs : List Event) (hne : evs ≠ []) (hch : evs.all isChange = true)
    (b : ConfidenceBand) :
    (runEvents st evs).status = .computing ∧
    (runEvents st evs).recomputes = st.recomputes ∧
    (runEvents st evs).pending = some (evs.foldl applyChange (st.series, st.config)) ∧
    (step (runEvents st evs) (Event.computeSuccess b)).recomputes = st.recomputes + 1 := by
  match evs, hne with
  | e :: rest, _ =>
    simp only [List.all_cons, Bool.and_eq_true] at hch
    obtain ⟨he, hrest⟩ := hch
    have key : runEvents st (e :: rest) =
        { st with pending := some ((e :: rest).foldl applyChange (st.series, st.config)) } := by
      cases e with
      | seriesChange s =>
        have hstep : step st (Event.seriesChange s) =
            { st with pending := some (s, st.config) } := by
          simp [step, h1, EngineState.pendingConfig, h2]
        have hrun : runEvents st (Event.seriesChange s :: rest) =
            runEvents { st with pending := some (s, st.config) } rest := by
          simp [runEvents, hstep]
        rw [hrun, runEvents_changes_pending rest hrest
          { st with pending := some (s, st.config) } (s, st.config) h1 rfl]
        simp [applyChange]
      | configChange c =>
        have hstep : step st (Event.configChange c) =
            { st with pending := some (st.series, c) } := by
          simp [step, h1, EngineState.pendingSeries, h2]
        have hrun : runEvents st (Event.configChange c :: rest) =
            runEvents { st with pending := some (st.series, c) } rest := by
          simp [runEvents, hstep]
        rw [hrun, runEvents_changes_pending rest hrest
          { st with pending := some (st.series, c) } (st.series, c) h1 rfl]
        simp [applyChange]
      | pin => simp [isChange] at he
      | unpin => simp [isChange] at he
      | computeStart => simp [isChange] at he
      | computeSuccess b2 => simp [isChange] at he
      | computeFailure => simp [isChange] at he
    refine ⟨by rw [key]; exact h1, by rw [key], by rw [key], ?_⟩
    rw [key]
    simp [step, h1]

/-- Witness for the C8 theorem: a concrete computing state absorbing a
series change followed by two config changes, then completing. -/
theorem computing_coalesces_changes_witness :
    ({ status := .computing, series := [], config := { confidenceLevel := 1, discoverSeasonalities := true },
       published := none, pending := none, recomputes := 1 } : EngineState).status = .computing ∧
    ({ status := .computing, series := [], config := { confidenceLevel := 1, discoverSeasonalities := true },
       published := none, pending := none, recomputes := 1 } : EngineState).pending = none ∧
    ([Event.seriesChange [{ t := 0, v := 0 }],
      Event.configChange { confidenceLevel := 2, discoverSeasonalities := true },
      Event.configChange { confidenceLevel := 3, discoverSeasonalities := false }] ≠
        ([] : List Event)) ∧
    ([Event.seriesChange [{ t := 0, v := 0 }],
      Event.configChange { confidenceLevel := 2, discoverSeasonalities := true },
      Event.configChange { confidenceLevel := 3, discoverSeasonalities := false }].all isChange = true) ∧
    ((runEvents
        { status := .computing, series := [], config := { confidenceLevel := 1, discoverSeasonalities := true },
          published := none, pending := none, recomputes := 1 }
        [Event.seriesChange [{ t := 0, v := 0 }],
         Event.configChange { confidenceLevel := 2, discoverSeasonalities := true },
         Event.configChange { confidenceLevel := 3, discoverSeasonalities := false }]).recomputes = 1 ∧
      (step
        (runEvents
          { status := .computing, series := [], config := { confidenceLevel := 1, discoverSeasonalities := true },
            published := none, pending := none, recomputes := 1 }
          [Event.seriesChange [{ t := 0, v := 0 }],
           Event.configChange { confidenceLevel := 2, discoverSeasonalities := true },
           Event.configChange { confidenceLevel := 3, discoverSeasonalities := false }])
        (Event.computeSuccess [])).recomputes = 1 + 1) := by
  have h := computing_coalesces_changes
    { status := .computing, series := [], config := { confidenceLevel := 1, discoverSeasonalities := true },
      published := none, pending := none, recomputes := 1 }
    rfl rfl
    [Event.seriesChange [{ t := 0, v := 0 }],
     Event.configChange { confidenceLevel := 2, discoverSeasonalities := true },
     Event.configChange { confidenceLevel := 3, discoverSeasonalities := false }]
    (by simp) rfl []
  exact ⟨rfl, rfl, by simp, rfl, h.2.1, h.2.2.2⟩
